import Mathlib

/-!
Shallow embedding of `src/app.py` (a Flask chat relay in front of a
generative-model SDK) and proofs of the specification claims.

Modelling conventions:
* A JSON field that may be absent or `null` is an `Option`; `none` stands
  for absent/null (Python `data.get(k)` returning `None`).
* Python `(x or y)` on strings maps `None`/`""` to the default.
* The external SDK call `model.generate_content(contents)` together with
  the `resp.text` read is an oracle `gen : GenRequest → Except String String`:
  `Except.error e` models an exception whose `str()` is `e`, `Except.ok t`
  models a successful call whose text output is `t`.
* The handler is instrumented: it returns the HTTP response together with
  the list of external calls it performed (each recorded as the full
  argument tuple), so that "no call is made" / "called exactly once" are
  provable statements.
-/

/-- Translation of Python `str.lower()` (restricted to its ASCII action,
which is all the persona keys exercise): lowercase every character. -/
def strLower (s : String) : String :=
  ⟨s.data.map Char.toLower⟩

/-- Translation of Python `str.strip()`: remove leading and trailing
whitespace characters. -/
def pyStrip (s : String) : String :=
  ⟨((s.data.dropWhile Char.isWhitespace).reverse.dropWhile Char.isWhitespace).reverse⟩

/-- The generation-parameter set of a profile (`generation_config` dict in
`app.py`).  The source's float literals are exact multiples of 1/100 and
the program never computes with them, so `temperature` and `top_p` are
stored as their value in hundredths (`0.55` ↦ `55`). -/
structure GenConfig where
  temperature : ℕ
  top_p : ℕ
  top_k : ℕ
  max_output_tokens : ℕ
deriving DecidableEq

/-- A persona profile: a system-instruction string and generation parameters. -/
structure Profile where
  system : String
  generation_config : GenConfig
deriving DecidableEq

/-- The profile `PROFILES["default"]` from `app.py`. -/
def defaultProfile : Profile :=
  { system :=
      "You are 'AstroMind', an expert AI specializing in aerospace engineering, deep space exploration, " ++
      "astrophysics, astronomy, and rocket science. Provide clear, accurate, and technically rich answers. " ++
      "If asked about general topics, connect them to space or physics when possible. " ++
      "Be concise, factual, and cite NASA/ESA/ISRO references when relevant."
    generation_config :=
      { temperature := 55, top_p := 90, top_k := 40, max_output_tokens := 512 } }

/-- The profile `PROFILES["teacher"]` from `app.py`. -/
def teacherProfile : Profile :=
  { system :=
      "You are 'AstroMentor', a friendly aerospace instructor. Explain step-by-step, " ++
      "use analogies from space missions (like Chandrayaan, Mars Rover, or Apollo), " ++
      "and make complex physics easy to understand for students."
    generation_config :=
      { temperature := 70, top_p := 95, top_k := 40, max_output_tokens := 700 } }

/-- The profile `PROFILES["support"]` from `app.py`. -/
def supportProfile : Profile :=
  { system :=
      "You are 'MissionControl', a technical support AI for aerospace systems. " ++
      "Help users troubleshoot rocket propulsion issues, satellite systems, and simulation software. " ++
      "Ask 1–2 clarifying questions first, then list solutions in bullet points."
    generation_config :=
      { temperature := 50, top_p := 85, top_k := 40, max_output_tokens := 600 } }

/-- The persona table `PROFILES`, an association list keyed by mode name. -/
def PROFILES : List (String × Profile) :=
  [("default", defaultProfile), ("teacher", teacherProfile), ("support", supportProfile)]

/-- The constant `MODEL_NAME` from `app.py`. -/
def MODEL_NAME : String := "gemini-2.5-flash-lite"

/-- One history turn of the request body: `{role: ..., text: ...}`.
`none` models an absent (or `null`) field. -/
structure Turn where
  role : Option String
  text : Option String
deriving DecidableEq

/-- The `/chat` request body: `{message, history, mode}`, every field optional. -/
structure ChatRequest where
  message : Option String
  history : Option (List Turn)
  mode : Option String
deriving DecidableEq

/-- One element of the `contents` list handed to the SDK:
`{"role": r, "parts": [t]}`. -/
structure Content where
  role : String
  parts : List String
deriving DecidableEq

/-- The full argument tuple of one external `generate_content` call:
model identifier, system instruction, generation parameters, turn sequence. -/
structure GenRequest where
  modelName : String
  system_instruction : String
  generation_config : GenConfig
  contents : List Content
deriving DecidableEq

/-- A JSON response body of the `/chat` handler. -/
inductive Body where
  | errorBody (error : String)
  | replyBody (reply : String) (mode : String)
deriving DecidableEq

/-- An HTTP response: status code and JSON body. -/
structure HttpResponse where
  status : ℕ
  body : Body
deriving DecidableEq

/-- Line 72: `mode = (data.get("mode") or "default").lower()`. -/
def modeOf (m : Option String) : String :=
  strLower (match m with
    | none => "default"
    | some s => if s = "" then "default" else s)

/-- Line 78: `profile = PROFILES.get(mode, PROFILES["default"])`.
`PROFILES["default"]` is itself a table read; its `getD defaultProfile`
can never fire on the table the program constructs. -/
def profileFor (tbl : List (String × Profile)) (mode : String) : Profile :=
  (tbl.lookup mode).getD ((tbl.lookup "default").getD defaultProfile)

/-- The whole mode-resolution pipeline applied to a raw mode string:
lowercase, then table lookup with default fallback (lines 72 and 78). -/
def selectProfile (m : String) : Profile :=
  profileFor PROFILES (strLower m)

/-- Lines 85-86: map one history turn to the SDK shape.  A role that is
exactly `"user"` stays `"user"`; anything else becomes `"model"`.
A missing `text` becomes the empty string (`turn.get("text", "")`). -/
def mapTurn (turn : Turn) : Content :=
  { role := if turn.role = some "user" then "user" else "model"
    parts := [turn.text.getD ""] }

/-- Lines 83-87: `contents` = the last 8 history turns (Python
`history[-8:]`), each mapped, then the new user message as final turn. -/
def buildContents (history : List Turn) (user_message : String) : List Content :=
  (history.drop (history.length - 8)).map mapTurn ++
    [{ role := "user", parts := [user_message] }]

/-- Lines 78-94: the argument tuple of the (single) external call the
handler would make for this request, over a given persona table. -/
def buildGenRequest (tbl : List (String × Profile)) (data : ChatRequest) : GenRequest :=
  let profile := profileFor tbl (modeOf data.mode)
  { modelName := MODEL_NAME
    system_instruction := profile.system
    generation_config := profile.generation_config
    contents := buildContents (data.history.getD []) (pyStrip (data.message.getD "")) }

/-- The `/chat` handler body (lines 68-99), parameterised by the persona
table it reads and the external-call oracle.  Returns the HTTP response
and the list of external calls that were made. -/
def chatWith (tbl : List (String × Profile)) (gen : GenRequest → Except String String)
    (data : ChatRequest) : HttpResponse × List GenRequest :=
  let user_message := pyStrip (data.message.getD "")
  if user_message = "" then
    ({ status := 400, body := .errorBody "Empty message" }, [])
  else
    let req := buildGenRequest tbl data
    match gen req with
    | .ok t =>
        ({ status := 200
           body := .replyBody (if t = "" then "(No response text)" else t) (modeOf data.mode) },
         [req])
    | .error e =>
        ({ status := 500, body := .errorBody e }, [req])

/-- The `/chat` handler as deployed: reads the module-level `PROFILES`. -/
def chat (gen : GenRequest → Except String String) (data : ChatRequest) :
    HttpResponse × List GenRequest :=
  chatWith PROFILES gen data

/-- The message of the `RuntimeError` raised at line 17. -/
def startupErrorMessage : String :=
  "Missing Gemini API key. Please set GEMINI_API_KEY environment variable."

/-- The state of a successfully started process: the registered routes and
the persona table, both built only after the key check passed. -/
structure StartedApp where
  routes : List String
  profiles : List (String × Profile)
deriving DecidableEq

/-- Lines 10-57: module import time.  `os.getenv` yields `none` when the
variable is absent; `if not GEMINI_API_KEY` fires on `None` and on `""`,
raising before `app`, its routes, or the handler are created. -/
def startup (env : Option String) : Except String StartedApp :=
  if env.getD "" = "" then
    .error startupErrorMessage
  else
    .ok { routes := ["/", "/chat"], profiles := PROFILES }

/-- The server-side state visible to the handler: the persona table is the
only module-level object it reads, and it performs no writes. -/
structure ServerState where
  profiles : List (String × Profile)
deriving DecidableEq

/-- Serving one request against the server state: the handler reads
`st.profiles` and leaves the state as it found it (no assignment occurs
anywhere in the handler body). -/
def serve (gen : GenRequest → Except String String) (st : ServerState)
    (data : ChatRequest) : (HttpResponse × List GenRequest) × ServerState :=
  (chatWith st.profiles gen data, st)

/-- Folding a whole request sequence through the server state. -/
def serveAll (gen : GenRequest → Except String String) (st : ServerState) :
    List ChatRequest → ServerState
  | [] => st
  | d :: ds => serveAll gen (serve gen st d).2 ds

set_option maxRecDepth 4000

/-- Lowercasing a character twice is the same as lowercasing it once:
uppercase letters land outside the uppercase range. -/
theorem Char.toLower_toLower (c : Char) : c.toLower.toLower = c.toLower := by
  simp only [Char.toLower]
  split
  next h =>
    have hv : (c.toNat + 32).isValidChar := Or.inl (by omega)
    have ht : (Char.ofNat (c.toNat + 32)).toNat = c.toNat + 32 := by
      rw [Char.ofNat, dif_pos hv]
      rfl
    rw [if_neg]
    rw [ht]
    omega
  next h =>
    rfl

/-- Applying `strLower` twice equals applying it once. -/
theorem strLower_strLower (s : String) : strLower (strLower s) = strLower s := by
  unfold strLower
  simp [List.map_map, Function.comp_def, Char.toLower_toLower]

/-- C1: a request whose message is absent, null, empty, or whitespace-only
(empty after stripping) gets HTTP 400 with body `{"error": "Empty message"}`,
and the list of external calls made is empty. -/
theorem chat_empty_message_400 (gen : GenRequest → Except String String)
    (data : ChatRequest) (h : pyStrip (data.message.getD "") = "") :
    chat gen data = ({ status := 400, body := .errorBody "Empty message" }, []) := by
  unfold chat chatWith
  rw [h]
  rfl

/-- Witness for C1 at the whitespace-only message `"   "`. -/
theorem chat_empty_message_400_witness :
    chat (fun _ => Except.ok "yo") ⟨some "   ", none, some "teacher"⟩ =
      ({ status := 400, body := .errorBody "Empty message" }, []) :=
  chat_empty_message_400 _ _ (by decide)

/-- C4: when the external call returns text `t`, the handler answers
HTTP 200 with `{"reply": t' , "mode": resolved mode}` where `t'` is `t`,
or the placeholder `"(No response text)"` when `t` is empty; exactly the
recorded call was made. -/
theorem chat_success_200 (gen : GenRequest → Except String String)
    (data : ChatRequest) (t : String)
    (hmsg : pyStrip (data.message.getD "") ≠ "")
    (hok : gen (buildGenRequest PROFILES data) = .ok t) :
    chat gen data =
      ({ status := 200
         body := .replyBody (if t = "" then "(No response text)" else t) (modeOf data.mode) },
       [buildGenRequest PROFILES data]) := by
  unfold chat chatWith
  rw [if_neg hmsg]
  simp only [hok]

/-- Witness for C4: empty model text yields the placeholder reply. -/
theorem chat_success_200_witness :
    chat (fun _ => Except.ok "") ⟨some "hi", none, none⟩ =
      ({ status := 200
         body := .replyBody (if "" = "" then "(No response text)" else "") (modeOf none) },
       [buildGenRequest PROFILES ⟨some "hi", none, none⟩]) :=
  chat_success_200 _ _ "" (by decide) rfl

/-- C5: when the external call raises an exception with string form `e`,
the handler answers HTTP 500 with `{"error": e}`, and the call was
attempted exactly once (the call list is the one recorded call). -/
theorem chat_upstream_error_500 (gen : GenRequest → Except String String)
    (data : ChatRequest) (e : String)
    (hmsg : pyStrip (data.message.getD "") ≠ "")
    (herr : gen (buildGenRequest PROFILES data) = .error e) :
    chat gen data =
      ({ status := 500, body := .errorBody e }, [buildGenRequest PROFILES data]) := by
  unfold chat chatWith
  rw [if_neg hmsg]
  simp only [herr]

/-- Witness for C5 at a concrete failing oracle. -/
theorem chat_upstream_error_500_witness :
    chat (fun _ => Except.error "quota exceeded") ⟨some "hi", none, some "teacher"⟩ =
      ({ status := 500, body := .errorBody "quota exceeded" },
       [buildGenRequest PROFILES ⟨some "hi", none, some "teacher"⟩]) :=
  chat_upstream_error_500 _ _ "quota exceeded" (by decide) rfl

/-- C6: mode resolution is case-insensitive: any mode string selects the
same profile as its lowercase form; in particular `"Teacher"` and
`"teacher"` select the same profile. -/
theorem selectProfile_case_insensitive :
    (∀ m : String, selectProfile m = selectProfile (strLower m)) ∧
      selectProfile "Teacher" = selectProfile "teacher" := by
  constructor
  · intro m
    unfold selectProfile
    rw [strLower_strLower]
  · decide

/-- C7: if the credential environment variable is absent or empty,
startup raises (returns the `RuntimeError` message) and no application
state - in particular no route - is ever constructed. -/
theorem startup_missing_key_fails (env : Option String)
    (h : env = none ∨ env = some "") :
    startup env = .error startupErrorMessage := by
  rcases h with h | h <;> subst h <;> rfl

/-- Witness for C7 at an absent variable. -/
theorem startup_missing_key_fails_witness :
    startup none = .error startupErrorMessage :=
  startup_missing_key_fails none (Or.inl rfl)

/-- C2 fails as stated: the request whose mode is the empty string has a
lowercased mode (`""`) that is not a key of the persona table, yet the
response's mode field is `"default"`, not the requested mode lowercased. -/
theorem chat_unknown_mode_echo_counterexample :
    PROFILES.lookup (strLower "") = none ∧
    (chat (fun _ => Except.ok "hello") ⟨some "hi", none, some ""⟩).1 =
      { status := 200, body := .replyBody "hello" "default" } ∧
    "default" ≠ strLower "" :=
  ⟨by decide, by decide, by decide⟩

/-- C2 (amended to non-empty mode strings): a request whose mode is a
non-empty string with unknown lowercased form gets the default profile's
system instruction and generation parameters on the external call, while
the successful response's mode field is the requested mode lowercased,
which is not `"default"`. -/
theorem chat_unknown_mode_uses_default_echoes_mode
    (gen : GenRequest → Except String String) (data : ChatRequest) (m t : String)
    (hm : data.mode = some m) (hne : m ≠ "")
    (hunknown : PROFILES.lookup (strLower m) = none)
    (hmsg : pyStrip (data.message.getD "") ≠ "")
    (hok : gen (buildGenRequest PROFILES data) = .ok t) :
    (buildGenRequest PROFILES data).system_instruction = defaultProfile.system ∧
    (buildGenRequest PROFILES data).generation_config = defaultProfile.generation_config ∧
    (chat gen data).1.body =
      .replyBody (if t = "" then "(No response text)" else t) (strLower m) ∧
    strLower m ≠ "default" := by
  have hmode : modeOf data.mode = strLower m := by
    rw [hm]
    show strLower (if m = "" then "default" else m) = strLower m
    rw [if_neg hne]
  have hprof : profileFor PROFILES (modeOf data.mode) = defaultProfile := by
    rw [hmode]
    unfold profileFor
    rw [hunknown]
    rfl
  have hdm : strLower m ≠ "default" := by
    intro hd
    rw [hd] at hunknown
    exact absurd hunknown (by decide)
  refine ⟨?_, ?_, ?_, hdm⟩
  · unfold buildGenRequest
    simp only [hprof]
  · unfold buildGenRequest
    simp only [hprof]
  · unfold chat chatWith
    rw [if_neg hmsg]
    simp only [hok, hmode]

/-- Witness for the amended C2 at the unknown mode `"Pilot"`. -/
theorem chat_unknown_mode_uses_default_echoes_mode_witness :
    (buildGenRequest PROFILES ⟨some "hi", none, some "Pilot"⟩).system_instruction =
        defaultProfile.system ∧
    (buildGenRequest PROFILES ⟨some "hi", none, some "Pilot"⟩).generation_config =
        defaultProfile.generation_config ∧
    (chat (fun _ => Except.ok "yo") ⟨some "hi", none, some "Pilot"⟩).1.body =
      .replyBody (if "yo" = "" then "(No response text)" else "yo") (strLower "Pilot") ∧
    strLower "Pilot" ≠ "default" :=
  chat_unknown_mode_uses_default_echoes_mode _ _ "Pilot" "yo" rfl (by decide) (by decide)
    (by decide) rfl

/-- C3: with a non-empty stripped message and history of length `n`, the
turn sequence of the one external call has `min n 8 + 1` elements: the
last `min n 8` history turns in order, each mapped to the SDK shape, and
the stripped message as final `"user"` turn. -/
theorem chat_history_window (gen : GenRequest → Except String String)
    (data : ChatRequest) (hmsg : pyStrip (data.message.getD "") ≠ "") :
    (chat gen data).2.length = 1 ∧
    ∀ req ∈ (chat gen data).2,
      req.contents.length = min (data.history.getD []).length 8 + 1 ∧
      (∀ i, i < min (data.history.getD []).length 8 →
        req.contents[i]? =
          ((data.history.getD [])[(data.history.getD []).length - 8 + i]?).map mapTurn) ∧
      req.contents[min (data.history.getD []).length 8]? =
        some { role := "user", parts := [pyStrip (data.message.getD "")] } := by
  have hcalls : (chat gen data).2 = [buildGenRequest PROFILES data] := by
    unfold chat chatWith
    rw [if_neg hmsg]
    cases hg : gen (buildGenRequest PROFILES data) <;> simp only [hg]
  rw [hcalls]
  refine ⟨rfl, ?_⟩
  intro req hreq
  rw [List.mem_singleton] at hreq
  subst hreq
  set hist := data.history.getD [] with hh
  set n := hist.length with hn
  have hcont : (buildGenRequest PROFILES data).contents =
      (hist.drop (n - 8)).map mapTurn ++
        [{ role := "user", parts := [pyStrip (data.message.getD "")] }] := rfl
  have hlenA : ((hist.drop (n - 8)).map mapTurn).length = min n 8 := by
    rw [List.length_map, List.length_drop]
    omega
  refine ⟨?_, ?_, ?_⟩
  · rw [hcont, List.length_append, hlenA]
    rfl
  · intro i hi
    rw [hcont, List.getElem?_append, if_pos (by rw [hlenA]; exact hi), List.getElem?_map,
      List.getElem?_drop]
  · rw [hcont, ← hlenA, List.getElem?_concat_length]

/-- Witness for C3 at a 10-turn history: the call has 9 turns. -/
theorem chat_history_window_witness :
    (chat (fun _ => Except.ok "yo")
        ⟨some "hi", some (List.replicate 10 ⟨some "user", some "t"⟩), none⟩).2.length = 1 ∧
    ∀ req ∈ (chat (fun _ => Except.ok "yo")
        ⟨some "hi", some (List.replicate 10 ⟨some "user", some "t"⟩), none⟩).2,
      req.contents.length =
        min ((some (List.replicate 10 (⟨some "user", some "t"⟩ : Turn))).getD []).length 8 + 1 ∧
      (∀ i, i < min ((some (List.replicate 10 (⟨some "user", some "t"⟩ : Turn))).getD []).length 8 →
        req.contents[i]? =
          (((some (List.replicate 10 (⟨some "user", some "t"⟩ : Turn))).getD
              [])[((some (List.replicate 10 (⟨some "user", some "t"⟩ : Turn))).getD
              []).length - 8 + i]?).map mapTurn) ∧
      req.contents[min ((some (List.replicate 10 (⟨some "user", some "t"⟩ : Turn))).getD
          []).length 8]? =
        some { role := "user", parts := [pyStrip ((some "hi").getD "")] } :=
  chat_history_window _ _ (by decide)

/-- C8: the handler mutates no server-side state: serving any sequence of
requests leaves the state exactly as it was, and the persona table (hence
the profile any mode resolves to) after any request sequence equals the
startup table. -/
theorem chat_stateless (gen : GenRequest → Except String String)
    (reqs : List ChatRequest) (st : ServerState) :
    serveAll gen st reqs = st ∧
    (serveAll gen { profiles := PROFILES } reqs).profiles = PROFILES ∧
    ∀ m, profileFor (serveAll gen { profiles := PROFILES } reqs).profiles m =
      profileFor PROFILES m := by
  have key : ∀ (s : ServerState) (rs : List ChatRequest), serveAll gen s rs = s := by
    intro s rs
    induction rs with
    | nil => rfl
    | cons d ds ih => exact ih
  exact ⟨key st reqs, by rw [key], fun m => by rw [key]⟩

/-- C9: a history turn is forwarded with role `"user"` exactly when its
role field is the string `"user"`; every other value - absent, null,
`"model"`, or anything unrecognized - is forwarded as `"model"`. -/
theorem mapTurn_role (turn : Turn) :
    (turn.role ≠ some "user" → (mapTurn turn).role = "model") ∧
      (turn.role = some "user" → (mapTurn turn).role = "user") := by
  constructor
  · intro h
    unfold mapTurn
    rw [if_neg h]
  · intro h
    unfold mapTurn
    rw [if_pos h]

/-- Witness for C9 at roles `"model"`, absent, `"USER"` and `"user"`. -/
theorem mapTurn_role_witness :
    (mapTurn ⟨some "model", some "a"⟩).role = "model" ∧
    (mapTurn ⟨none, some "a"⟩).role = "model" ∧
    (mapTurn ⟨some "USER", none⟩).role = "model" ∧
    (mapTurn ⟨some "user", none⟩).role = "user" :=
  ⟨(mapTurn_role _).1 (by decide), (mapTurn_role _).1 (by decide),
    (mapTurn_role _).1 (by decide), (mapTurn_role _).2 rfl⟩

/-- C10: absent optional fields take fixed defaults: a request without a
mode resolves to the default profile and reports mode `"default"`; a
request without a history behaves exactly like one with the empty history
list; a turn without a text is forwarded with empty-string content. -/
theorem chat_optional_field_defaults :
    (∀ (gen : GenRequest → Except String String) (data : ChatRequest) (t : String),
      data.mode = none → pyStrip (data.message.getD "") ≠ "" →
      gen (buildGenRequest PROFILES data) = .ok t →
        (buildGenRequest PROFILES data).system_instruction = defaultProfile.system ∧
        (buildGenRequest PROFILES data).generation_config =
          defaultProfile.generation_config ∧
        (chat gen data).1.body =
          .replyBody (if t = "" then "(No response text)" else t) "default") ∧
    (∀ (gen : GenRequest → Except String String) (data : ChatRequest),
      data.history = none →
        chat gen data = chat gen { data with history := some [] }) ∧
    (∀ turn : Turn, turn.text = none → (mapTurn turn).parts = [""]) := by
  refine ⟨?_, ?_, ?_⟩
  · intro gen data t hm hmsg hok
    have hmode : modeOf data.mode = "default" := by
      rw [hm]
      decide
    have hprof : profileFor PROFILES (modeOf data.mode) = defaultProfile := by
      rw [hmode]
      decide
    refine ⟨?_, ?_, ?_⟩
    · unfold buildGenRequest
      simp only [hprof]
    · unfold buildGenRequest
      simp only [hprof]
    · unfold chat chatWith
      rw [if_neg hmsg]
      simp only [hok, hmode]
  · intro gen data hh
    unfold chat chatWith buildGenRequest
    rw [hh]
    rfl
  · intro turn ht
    unfold mapTurn
    rw [ht]
    rfl

/-- Witness for C10 at concrete requests with the fields absent. -/
theorem chat_optional_field_defaults_witness :
    ((buildGenRequest PROFILES ⟨some "hi", none, none⟩).system_instruction =
        defaultProfile.system ∧
      (buildGenRequest PROFILES ⟨some "hi", none, none⟩).generation_config =
        defaultProfile.generation_config ∧
      (chat (fun _ => Except.ok "yo") ⟨some "hi", none, none⟩).1.body =
        .replyBody (if "yo" = "" then "(No response text)" else "yo") "default") ∧
    chat (fun _ => Except.ok "yo") ⟨some "hi", none, none⟩ =
      chat (fun _ => Except.ok "yo") ⟨some "hi", some [], none⟩ ∧
    (mapTurn ⟨some "user", none⟩).parts = [""] :=
  ⟨chat_optional_field_defaults.1 _ _ "yo" rfl (by decide) rfl,
    chat_optional_field_defaults.2.1 _ ⟨some "hi", none, none⟩ rfl,
    chat_optional_field_defaults.2.2 _ rfl⟩
